import Mathlib

/-!
# Verification of the iSensor FX3 firmware control-endpoint dispatcher

Shallow embedding of `AdiControlEndpointHandler`, `AdiAppStop` and
`AdiAppErrorHandler` from `FX3_Firmware/main.c`, and of the bit-bang SPI
transfer declared in `FX3_Firmware/SpiFunctions.h`.

The handler is modelled as a pure function from the USB setup words and an
environment (the status codes returned by the Cypress SDK and peripheral
calls it makes) to a pair of the returned `isHandled` boolean and a trace of
the externally visible actions it performs, listed in source order.  Writes
to the shared `FX3State` / `StreamThreadState` globals appear in the trace as
explicit actions, so ordering claims and no-modification claims are both
statements about the trace.

The numeric values of the `ADI_*` vendor-request codes and the
`ADI_STREAM_*_CMD` sub-operation selectors live in `main.h`, which is not
part of the sources; the embedding is therefore parameterised over an
arbitrary assignment of those codes (`CmdCodes`, `StreamCmdCodes`) and a
request is identified by which switch case it selects (`decodeCmd`,
`decodeSub`), exactly mirroring the C `switch` statements.  The Cypress USB
decode masks (`CY_U3P_USB_TYPE_MASK` = 0x60, `CY_U3P_USB_VENDOR_RQT` = 0x40,
`CY_U3P_USB_STANDARD_RQT` = 0x00, target masks, feature selectors) are the
standard USB constants from the Cypress SDK headers.
-/

set_option maxHeartbeats 1600000

/-- Event flags raised on the shared `EventHandler` event group by the
streaming vendor commands.  Each `ADI_*_STREAM_*` constant in `main.h` is a
distinct bit; only the identity of the bit matters here. -/
inductive EvFlag where
  | genericStart | genericDone | genericStop
  | burstStart | burstDone | burstStop
  | rtStart | rtDone | rtStop
  | transferStart | transferDone | transferStop
deriving DecidableEq, Repr

/-- Debug-console messages emitted by the handler paths we model. -/
inductive LogMsg where
  /-- "ERROR: Unknown Stream Command: %d" with the offending wIndex. -/
  | unknownStreamCmd (idx : Nat)
  /-- "Setting ... stream event failed, Error code = %x" with the status. -/
  | eventSetFailed (st : Nat)
  /-- "Application stopping!" from `AdiAppStop`. -/
  | appStopping
  /-- "Rebooting in %d seconds..." countdown inside `AdiAppErrorHandler`. -/
  | rebootCountdown (i : Nat)
deriving DecidableEq, Repr

/-- Externally visible actions performed by the handler, in source order.
State writes to `FX3State` / `StreamThreadState` are explicit actions. -/
inductive Act where
  -- writes to FX3State / StreamThreadState
  | setBootTime (v : Nat)
  | setAppActive (b : Bool)
  | setTransferByteLength (v : Nat)
  | setTransferWordLength (v : Nat)
  | setPinExitEnable (v : Nat)
  -- event flag raise (CyU3PEventSet on EventHandler)
  | eventSet (f : EvFlag)
  -- USB control / bulk endpoint operations
  | getEP0Data (len : Nat)
  | sendEP0 (len : Nat) (payload : List Nat)
  | bulkSend (count : Nat) (payload : List Nat)
  | ackSetup
  | stallEp0
  -- peripheral / helper calls made by the command cases
  | busyMeasure (len : Nat)
  | readRegBytes (addr : Nat)
  | writeRegByte (addr data : Nat)
  | pulseDrive
  | pulseWait (len : Nat)
  | setPinCall (pin val : Nat)
  | spiUpdate (idx val len : Nat)
  | pinRead (pin : Nat)
  | pinDelayMeasure (len : Nat)
  | getSpiSettings
  | readTimerValue
  | setDutSupply (v : Nat)
  | measurePinFreq
  | configurePWM (en : Nat)
  | transferBytes (w : Nat)
  | bitBangSpiH
  | restartSpi
  | setPinResistorCall (pin val : Nat)
  | flashRead (addr len : Nat)
  | writeErrorLogCount (n : Nat)
  | logError (info : Nat)
  -- system-level operations (reset paths, AdiAppStop internals)
  | sleep (ms : Nat)
  | connectState (connect warm : Bool)
  | pibDeInit
  | deviceReset (warm : Bool)
  | fatalError (st : Nat)
  | debugLog (m : LogMsg)
  | uartDeInit
  | gpioDeInit
  | spiDeInit
  | eventDestroy
  | flushEp (ep : Nat)
  | dmaDestroy (ch : Nat)
  | setEpConfig (ep : Nat) (enable : Bool)
deriving DecidableEq, Repr

/-- The fields of the global `BoardState FX3State` that the control-endpoint
handler can write (`BootTime` in the `ADI_SET_BOOT_TIME` case, `AppActive`
in `AdiAppStop`).  The remaining `BoardState` fields are never written on
any handler path and are omitted. -/
structure FX3St where
  BootTime : Nat
  AppActive : Bool
deriving DecidableEq, Repr

/-- The fields of the global `StreamState StreamThreadState` written by the
streaming command cases.  `PinExitEnable` is a `CyBool_t` receiving the raw
cast `(CyBool_t) wValue`, so it is kept as a number. -/
structure StreamSt where
  TransferByteLength : Nat
  TransferWordLength : Nat
  PinExitEnable : Nat
deriving DecidableEq, Repr

/-- Interpretation of a trace action as a state update on the pair of
shared-state records.  Actions that are not state writes leave the state
unchanged. -/
def applyAction (s : FX3St × StreamSt) (a : Act) : FX3St × StreamSt :=
  match a with
  | .setBootTime v => ({ s.1 with BootTime := v }, s.2)
  | .setAppActive b => ({ s.1 with AppActive := b }, s.2)
  | .setTransferByteLength v => (s.1, { s.2 with TransferByteLength := v })
  | .setTransferWordLength v => (s.1, { s.2 with TransferWordLength := v })
  | .setPinExitEnable v => (s.1, { s.2 with PinExitEnable := v })
  | _ => s

/-- Run a trace over an initial shared state. -/
def runTrace (s : FX3St × StreamSt) (tr : List Act) : FX3St × StreamSt :=
  tr.foldl applyAction s

/-- Environment: the status codes (0 = `CY_U3P_SUCCESS`) and data returned
by the external calls the handler makes.  One invocation of the handler
calls each relevant external function at most once, so a single field per
function suffices. -/
structure Env where
  busyMeasureStatus : Nat
  getEP0Status : Nat
  pulseDriveStatus : Nat
  pulseWaitStatus : Nat
  setPinStatus : Nat
  sendEP0Status : Nat
  pinReadStatus : Nat
  pinDelayStatus : Nat
  getSpiSettingsStatus : Nat
  readTimerStatus : Nat
  setDutSupplyStatus : Nat
  measurePinFreqStatus : Nat
  configurePwmStatus : Nat
  transferBytesStatus : Nat
  bitBangStatus : Nat
  restartSpiStatus : Nat
  setPinResistorStatus : Nat
  /-- Status of the single `CyU3PEventSet` call a streaming command makes. -/
  eventSetStatus : Nat
  /-- Return value of `AdiSpiUpdate` (a `CyBool_t`). -/
  spiUpdateResult : Bool
  /-- Bytes available in `USBBuffer` after `CyU3PUsbGetEP0Data`. -/
  ep0 : Nat → Nat
  firmwareId : List Nat
  serial : List Nat
  buildDate : List Nat
  boardInfo : List Nat
  /-- Status of `CyU3PSetEpConfig` on the streaming endpoint in `AdiAppStop`. -/
  epCfgStream : Nat
  /-- Status of `CyU3PSetEpConfig` on the PC-to-FX3 endpoint in `AdiAppStop`. -/
  epCfgFromPC : Nat
  /-- Status of `CyU3PSetEpConfig` on the FX3-to-PC endpoint in `AdiAppStop`. -/
  epCfgToPC : Nat

/-- The numeric values of the `ADI_*` vendor request codes, defined in
`main.h` (not among the sources).  One field per `case` label of the
`switch (bRequest)` in `AdiControlEndpointHandler`, in source order. -/
structure CmdCodes where
  busyMeasure : Nat
  readBytes : Nat
  writeByte : Nat
  setBootTime : Nat
  pulseDrive : Nat
  pulseWait : Nat
  setPin : Nat
  firmwareIdCheck : Nat
  serialNumberCheck : Nat
  getBuildDate : Nat
  hardReset : Nat
  warmReset : Nat
  setSpiConfig : Nat
  readPin : Nat
  pinDelayMeasure : Nat
  readSpiConfig : Nat
  readTimerValue : Nat
  setDutSupply : Nat
  getStatus : Nat
  getBoardType : Nat
  streamGenericData : Nat
  streamBurstData : Nat
  streamRealTime : Nat
  transferStream : Nat
  measureDr : Nat
  pwmCmd : Nat
  transferBytes : Nat
  bitbangSpi : Nat
  resetSpi : Nat
  setPinResistor : Nat
  nullCommand : Nat
  readFlash : Nat
  clearFlashLog : Nat

/-- The list of all recognized vendor request codes (the `case` labels of
the request switch). -/
def recognizedCodes (c : CmdCodes) : List Nat :=
  [c.busyMeasure, c.readBytes, c.writeByte, c.setBootTime, c.pulseDrive,
   c.pulseWait, c.setPin, c.firmwareIdCheck, c.serialNumberCheck,
   c.getBuildDate, c.hardReset, c.warmReset, c.setSpiConfig, c.readPin,
   c.pinDelayMeasure, c.readSpiConfig, c.readTimerValue, c.setDutSupply,
   c.getStatus, c.getBoardType, c.streamGenericData, c.streamBurstData,
   c.streamRealTime, c.transferStream, c.measureDr, c.pwmCmd,
   c.transferBytes, c.bitbangSpi, c.resetSpi, c.setPinResistor,
   c.nullCommand, c.readFlash, c.clearFlashLog]

/-- The vendor command selected by a request code: one constructor per
`case` label, plus `unknown` for the `default` case. -/
inductive VendorCmd where
  | busyMeasure | readBytes | writeByte | setBootTime | pulseDrive
  | pulseWait | setPin | firmwareIdCheck | serialNumberCheck | getBuildDate
  | hardReset | warmReset | setSpiConfig | readPin | pinDelayMeasure
  | readSpiConfig | readTimerValue | setDutSupply | getStatus | getBoardType
  | streamGenericData | streamBurstData | streamRealTime | transferStream
  | measureDr | pwmCmd | transferBytes | bitbangSpi | resetSpi
  | setPinResistor | nullCommand | readFlash | clearFlashLog
  | unknown
deriving DecidableEq, Repr

/-- Which `case` of `switch (bRequest)` a request code selects.  A C
`switch` requires the case labels to be pairwise distinct, so testing them
in source order is equivalent to the switch dispatch. -/
def decodeCmd (c : CmdCodes) (r : Nat) : VendorCmd :=
  if r = c.busyMeasure then .busyMeasure
  else if r = c.readBytes then .readBytes
  else if r = c.writeByte then .writeByte
  else if r = c.setBootTime then .setBootTime
  else if r = c.pulseDrive then .pulseDrive
  else if r = c.pulseWait then .pulseWait
  else if r = c.setPin then .setPin
  else if r = c.firmwareIdCheck then .firmwareIdCheck
  else if r = c.serialNumberCheck then .serialNumberCheck
  else if r = c.getBuildDate then .getBuildDate
  else if r = c.hardReset then .hardReset
  else if r = c.warmReset then .warmReset
  else if r = c.setSpiConfig then .setSpiConfig
  else if r = c.readPin then .readPin
  else if r = c.pinDelayMeasure then .pinDelayMeasure
  else if r = c.readSpiConfig then .readSpiConfig
  else if r = c.readTimerValue then .readTimerValue
  else if r = c.setDutSupply then .setDutSupply
  else if r = c.getStatus then .getStatus
  else if r = c.getBoardType then .getBoardType
  else if r = c.streamGenericData then .streamGenericData
  else if r = c.streamBurstData then .streamBurstData
  else if r = c.streamRealTime then .streamRealTime
  else if r = c.transferStream then .transferStream
  else if r = c.measureDr then .measureDr
  else if r = c.pwmCmd then .pwmCmd
  else if r = c.transferBytes then .transferBytes
  else if r = c.bitbangSpi then .bitbangSpi
  else if r = c.resetSpi then .resetSpi
  else if r = c.setPinResistor then .setPinResistor
  else if r = c.nullCommand then .nullCommand
  else if r = c.readFlash then .readFlash
  else if r = c.clearFlashLog then .clearFlashLog
  else .unknown

/-- The numeric values of the `ADI_STREAM_START_CMD` / `ADI_STREAM_DONE_CMD`
/ `ADI_STREAM_STOP_CMD` sub-operation selectors from `main.h` (not among
the sources). -/
structure StreamCmdCodes where
  start : Nat
  done : Nat
  stop : Nat

/-- The sub-operation selected by `wIndex` inside a streaming command:
one constructor per `case` label of the inner `switch (wIndex)`, plus
`unknown` for its `default` case. -/
inductive StreamCmd where
  | start | done | stop | unknown
deriving DecidableEq, Repr

/-- Which `case` of the inner `switch (wIndex)` a sub-operation selector
selects. -/
def decodeSub (sc : StreamCmdCodes) (w : Nat) : StreamCmd :=
  if w = sc.start then .start
  else if w = sc.done then .done
  else if w = sc.stop then .stop
  else .unknown

/-- The four little-endian status bytes the handler writes into
`USBBuffer[0..3]` before replying: `status & 0xFF`, `(status & 0xFF00) >> 8`,
`(status & 0xFF0000) >> 16`, `(status & 0xFF000000) >> 24`. -/
def statusBytes (s : Nat) : List Nat :=
  [s &&& 0xFF, (s &&& 0xFF00) >>> 8, (s &&& 0xFF0000) >>> 16,
   (s &&& 0xFF000000) >>> 24]

/-- `AdiAppErrorHandler` (main.c lines 927-940): log the fatal status,
count down five seconds, then hard-reset the device (`CyU3PDeviceReset
(CyFalse)`).  It never returns to its caller. -/
def AdiAppErrorHandler (st : Nat) : List Act :=
  [.fatalError st,
   .debugLog (.rebootCountdown 5), .sleep 1000,
   .debugLog (.rebootCountdown 4), .sleep 1000,
   .debugLog (.rebootCountdown 3), .sleep 1000,
   .debugLog (.rebootCountdown 2), .sleep 1000,
   .debugLog (.rebootCountdown 1), .sleep 1000,
   .deviceReset false]

/-- `AdiAppStop` (main.c lines 950-1008): tear down UART, GPIO, SPI, event
groups, endpoints and DMA channels.  Each of the three
`CyU3PSetEpConfig` disable calls escalates a failure to
`AdiAppErrorHandler`.  Endpoint numbers 0x81 / 0x01 / 0x82 are the
streaming, PC-to-FX3 and FX3-to-PC bulk endpoints documented at the DMA
channel definitions (main.c lines 72-79).  Returns the action trace plus
`true` when the function runs to completion (no fatal escalation). -/
def AdiAppStop (env : Env) : List Act × Bool :=
  let pre : List Act :=
    [.debugLog .appStopping, .setAppActive false, .uartDeInit, .gpioDeInit,
     .spiDeInit, .eventDestroy, .eventDestroy, .flushEp 0x81, .flushEp 0x01,
     .flushEp 0x82, .dmaDestroy 0, .dmaDestroy 1, .setEpConfig 0x81 false]
  if env.epCfgStream = 0 then
    let pre2 := pre ++ [.setEpConfig 0x01 false]
    if env.epCfgFromPC = 0 then
      let pre3 := pre2 ++ [.setEpConfig 0x82 false]
      if env.epCfgToPC = 0 then (pre3, true)
      else (pre3 ++ AdiAppErrorHandler env.epCfgToPC, false)
    else (pre2 ++ AdiAppErrorHandler env.epCfgFromPC, false)
  else (pre ++ AdiAppErrorHandler env.epCfgStream, false)

/-- The shared body of the `ADI_HARD_RESET` and `ADI_WARM_RESET` cases
(main.c lines 332-356): ack the setup packet, drain EP0, sleep 500 ms,
disconnect from the host, stop the application, de-init the PIB block,
sleep 500 ms again, then `CyU3PDeviceReset(warm)`.  When `AdiAppStop`
escalates to the fatal handler, nothing after it runs. -/
def resetSequence (env : Env) (wLength : Nat) (warm : Bool) : List Act :=
  let stop := AdiAppStop env
  [.ackSetup, .getEP0Data wLength, .sleep 500, .connectState false true]
    ++ stop.1
    ++ (if stop.2 then [.pibDeInit, .sleep 500, .deviceReset warm] else [])

/-- Outcome of one streaming family after its inner `switch (wIndex)`:
apply the trailing `if (status != CY_U3P_SUCCESS)` check of the family, which
clears `isHandled` and logs the failing status. -/
def streamResult (st : Nat) (tr : List Act) : Bool × Nat × List Act :=
  if st = 0 then (true, st, tr)
  else (false, st, tr ++ [.debugLog (.eventSetFailed st)])

/-- The body of one `case` of `switch (bRequest)` in
`AdiControlEndpointHandler`, transcribed from main.c lines 241-631.
Returns `(isHandled, status, trace)`, with `isHandled` entering as `CyTrue`
(line 235) and `status` entering as `CY_U3P_SUCCESS` (line 220). -/
def dispatch (env : Env) (sc : StreamCmdCodes) (cmd : VendorCmd)
    (wValue wIndex wLength : Nat) : Bool × Nat × List Act :=
  match cmd with
  | .busyMeasure => (true, env.busyMeasureStatus, [.busyMeasure wLength])
  | .readBytes => (true, 0, [.readRegBytes wIndex])
  | .writeByte => (true, 0, [.writeRegByte wIndex (wValue &&& 0xFF)])
  | .setBootTime =>
      let bt := (env.ep0 0 % 256) ||| ((env.ep0 1 % 256) <<< 8)
                  ||| ((env.ep0 2 % 256) <<< 16) ||| ((env.ep0 3 % 256) <<< 24)
      (true, env.getEP0Status, [.getEP0Data wLength, .setBootTime bt])
  | .pulseDrive =>
      (true, env.pulseDriveStatus,
       [.getEP0Data wLength, .pulseDrive,
        .bulkSend 4 (statusBytes env.pulseDriveStatus)])
  | .pulseWait => (true, env.pulseWaitStatus, [.pulseWait wLength])
  | .setPin =>
      (true, env.setPinStatus,
       [.setPinCall wIndex wValue,
        .sendEP0 wLength (statusBytes env.setPinStatus)])
  | .firmwareIdCheck =>
      (if env.sendEP0Status = 0 then true else false, env.sendEP0Status,
       [.sendEP0 32 env.firmwareId])
  | .serialNumberCheck =>
      (if env.sendEP0Status = 0 then true else false, env.sendEP0Status,
       [.sendEP0 32 env.serial])
  | .getBuildDate => (true, 0, [.sendEP0 wLength env.buildDate])
  | .hardReset => (true, 0, resetSequence env wLength false)
  | .warmReset => (true, 0, resetSequence env wLength true)
  | .setSpiConfig =>
      (env.spiUpdateResult, 0, [.spiUpdate wIndex wValue wLength])
  | .readPin =>
      (if env.pinReadStatus = 0 then true else false, env.pinReadStatus,
       [.pinRead wIndex])
  | .pinDelayMeasure =>
      (if env.pinDelayStatus = 0 then true else false, env.pinDelayStatus,
       [.pinDelayMeasure wLength])
  | .readSpiConfig =>
      (if env.getSpiSettingsStatus = 0 then true else false,
       env.getSpiSettingsStatus, [.getSpiSettings])
  | .readTimerValue =>
      (if env.readTimerStatus = 0 then true else false, env.readTimerStatus,
       [.readTimerValue])
  | .setDutSupply =>
      (true, env.setDutSupplyStatus,
       [.setDutSupply wValue,
        .sendEP0 wLength (statusBytes env.setDutSupplyStatus)])
  | .getStatus =>
      -- the local status is still CY_U3P_SUCCESS when this case reads it
      (true, 0, [.sendEP0 wLength (statusBytes 0 ++ [0])])
  | .getBoardType => (true, 0, [.sendEP0 wLength env.boardInfo])
  | .streamGenericData =>
      match decodeSub sc wIndex with
      | .start =>
          streamResult env.eventSetStatus
            [.getEP0Data wLength, .eventSet .genericStart,
             .setTransferByteLength wLength]
      | .done =>
          streamResult env.eventSetStatus
            [.getEP0Data wLength, .eventSet .genericDone]
      | .stop => streamResult env.eventSetStatus [.eventSet .genericStop]
      | .unknown =>
          streamResult 0 [.debugLog (.unknownStreamCmd wIndex)]
  | .streamBurstData =>
      match decodeSub sc wIndex with
      | .start =>
          streamResult env.eventSetStatus
            [.setTransferWordLength wLength, .eventSet .burstStart]
      | .done =>
          streamResult env.eventSetStatus
            [.getEP0Data wLength, .eventSet .burstDone]
      | .stop => streamResult env.eventSetStatus [.eventSet .burstStop]
      | .unknown =>
          streamResult 0 [.debugLog (.unknownStreamCmd wIndex)]
  | .streamRealTime =>
      match decodeSub sc wIndex with
      | .start =>
          streamResult env.eventSetStatus
            [.setPinExitEnable wValue, .eventSet .rtStart]
      | .done =>
          streamResult env.eventSetStatus
            [.getEP0Data wLength, .eventSet .rtDone]
      | .stop => streamResult env.eventSetStatus [.eventSet .rtStop]
      | .unknown =>
          streamResult 0 [.debugLog (.unknownStreamCmd wIndex)]
  | .transferStream =>
      match decodeSub sc wIndex with
      | .start =>
          streamResult env.eventSetStatus
            [.eventSet .transferStart, .setTransferByteLength wLength]
      | .done =>
          streamResult env.eventSetStatus
            [.getEP0Data wLength, .eventSet .transferDone]
      | .stop => streamResult env.eventSetStatus [.eventSet .transferStop]
      | .unknown =>
          streamResult 0 [.debugLog (.unknownStreamCmd wIndex)]
  | .measureDr =>
      (true, env.measurePinFreqStatus, [.getEP0Data wLength, .measurePinFreq])
  | .pwmCmd =>
      (true, env.configurePwmStatus, [.getEP0Data wLength, .configurePWM wIndex])
  | .transferBytes =>
      -- upper 2 write bytes are passed in wIndex, lower are passed in wValue
      (true, env.transferBytesStatus, [.transferBytes (wIndex <<< 16 ||| wValue)])
  | .bitbangSpi =>
      (true, env.bitBangStatus, [.getEP0Data wLength, .bitBangSpiH])
  | .resetSpi =>
      (true, env.restartSpiStatus,
       [.restartSpi, .sendEP0 wLength (statusBytes env.restartSpiStatus)])
  | .setPinResistor =>
      (true, env.setPinResistorStatus,
       [.setPinResistorCall wIndex wValue,
        .sendEP0 wLength (statusBytes env.setPinResistorStatus),
        .logError wIndex])
  | .nullCommand => (true, 0, [])
  | .readFlash => (true, 0, [.flashRead ((wIndex <<< 16) ||| wValue) wLength])
  | .clearFlashLog =>
      (true, 0, [.writeErrorLogCount 0, .getEP0Data wLength])
  | .unknown => (false, 0, [])

/-- `bReqType = setupdat0 & CY_U3P_USB_REQUEST_TYPE_MASK` (0xFF). -/
def bReqTypeOf (d0 : Nat) : Nat := d0 &&& 0xFF

/-- `bType = bReqType & CY_U3P_USB_TYPE_MASK` (0x60). -/
def bTypeOf (d0 : Nat) : Nat := bReqTypeOf d0 &&& 0x60

/-- `bTarget = bReqType & CY_U3P_USB_TARGET_MASK` (0x03). -/
def bTargetOf (d0 : Nat) : Nat := bReqTypeOf d0 &&& 0x03

/-- `bRequest = (setupdat0 & CY_U3P_USB_REQUEST_MASK) >> CY_U3P_USB_REQUEST_POS`. -/
def bRequestOf (d0 : Nat) : Nat := (d0 &&& 0xFF00) >>> 8

/-- `wValue = (setupdat0 & CY_U3P_USB_VALUE_MASK) >> CY_U3P_USB_VALUE_POS`. -/
def wValueOf (d0 : Nat) : Nat := (d0 &&& 0xFFFF0000) >>> 16

/-- `wIndex = (setupdat1 & CY_U3P_USB_INDEX_MASK) >> CY_U3P_USB_INDEX_POS`. -/
def wIndexOf (d1 : Nat) : Nat := d1 &&& 0xFFFF

/-- `wLength = (setupdat1 & CY_U3P_USB_LENGTH_MASK) >> CY_U3P_USB_LENGTH_POS`. -/
def wLengthOf (d1 : Nat) : Nat := (d1 &&& 0xFFFF0000) >>> 16

/-- `AdiControlEndpointHandler` (main.c lines 211-663).  Decodes the setup
words, dispatches vendor requests, transcribes the (dead) standard-request
block nested inside the vendor branch (lines 633-653, with
`CY_U3P_USB_TARGET_INTF` = 0x01, `CY_U3P_USB_TARGET_ENDPT` = 0x02,
`CY_U3P_USB_SC_SET_FEATURE` = 0x03, `CY_U3P_USB_SC_CLEAR_FEATURE` = 0x01),
then applies the final "stall on error" check (lines 656-659).  Returns
the `isHandled` result and the action trace. -/
def AdiControlEndpointHandler (env : Env) (c : CmdCodes) (sc : StreamCmdCodes)
    (fx : FX3St) (setupdat0 setupdat1 : Nat) : Bool × List Act :=
  let bType := bTypeOf setupdat0
  let bTarget := bTargetOf setupdat0
  let bRequest := bRequestOf setupdat0
  let wValue := wValueOf setupdat0
  let wIndex := wIndexOf setupdat1
  let wLength := wLengthOf setupdat1
  if bType = 0x40 then
    let r := dispatch env sc (decodeCmd c bRequest) wValue wIndex wLength
    let isHandled1 := r.1
    let status := r.2.1
    let tr := r.2.2
    let r2 : Bool × List Act :=
      if bType = 0x00 then
        let rA : Bool × List Act :=
          if bTarget = 0x01 ∧ (bRequest = 0x03 ∨ bRequest = 0x01) ∧ wValue = 0
          then (true, tr ++ [if fx.AppActive then Act.ackSetup else Act.stallEp0])
          else (isHandled1, tr)
        if bTarget = 0x02 then (true, rA.2) else rA
      else (isHandled1, tr)
    (if status = 0 then r2.1 else false, r2.2)
  else (false, [])

/-!
## Bit-bang SPI model

`AdiBitBangSpiTransfer` is declared in `SpiFunctions.h` but its body
(`SpiFunctions.c`) is not among the sources, so the transfer is modelled
from the spec.
-/

/-- The `BitBangSpiConf` structure from `SpiFunctions.h` (lines 28-44):
pin numbers for MOSI / MISO / CS / SCLK, the half-clock delay (≈ 62 ns per
tick), and the CS lead and lag delays. -/
structure BitBangSpiConf where
  MOSI : Nat
  MISO : Nat
  CS : Nat
  SCLK : Nat
  HalfClockDelay : Nat
  CSLeadDelay : Nat
  CSLagDelay : Nat
deriving DecidableEq, Repr

/-- `BITBANG_HALFCLOCK_OFFSET` from `SpiFunctions.h` line 68: offset added
to the shorter half-period so that it matches the longer one. -/
def BITBANG_HALFCLOCK_OFFSET : Nat := 8

/-- Primitive steps of a bit-bang SPI transfer, with busy-waits carrying
their tick count. -/
inductive BBAct where
  | csAssert
  | csDeassert
  | driveMOSI (b : Bool)
  | sampleMISO
  | clockEdge (rising : Bool)
  | wait (ticks : Nat)
deriving DecidableEq, Repr

/-- Modelled from the spec: one bit of `AdiBitBangSpiTransfer`
(`SpiFunctions.c` is not among the sources).  Per spec §4.3: "drive MOSI,
wait half-period, toggle clock, sample MISO, wait half-period, toggle
clock back"; the fixed asymmetry-compensation offset
`BITBANG_HALFCLOCK_OFFSET` is applied to the shorter (second) half. -/
def bitBangBit (d : Nat) (mosi : Bool) : List BBAct :=
  [.driveMOSI mosi, .wait d, .clockEdge true, .sampleMISO,
   .wait (d + BITBANG_HALFCLOCK_OFFSET), .clockEdge false]

/-- Modelled from the spec: the `n` data bits of a bit-bang transfer,
MSB first, repeated `bitCount` times. -/
def bitBangBits (mosi : Nat → Bool) (d : Nat) : Nat → List BBAct
  | 0 => []
  | n + 1 => bitBangBits mosi d n ++ bitBangBit d (mosi n)

/-- Modelled from the spec: `AdiBitBangSpiTransfer` (declared in
`SpiFunctions.h` line 63; body not among the sources).  Chip select is
asserted, held for `CSLeadDelay`, the `bitCount` bits are clocked out,
then CS is held for `CSLagDelay` before being de-asserted. -/
def AdiBitBangSpiTransfer (mosi : Nat → Bool) (bitCount : Nat)
    (cfg : BitBangSpiConf) : List BBAct :=
  [.csAssert, .wait cfg.CSLeadDelay]
    ++ bitBangBits mosi cfg.HalfClockDelay bitCount
    ++ [.wait cfg.CSLagDelay, .csDeassert]

/-- Number of rising clock edges in a bit-bang trace. -/
def risingEdges (tr : List BBAct) : Nat :=
  tr.countP fun a => match a with | .clockEdge true => true | _ => false

/-- Number of falling clock edges in a bit-bang trace. -/
def fallingEdges (tr : List BBAct) : Nat :=
  tr.countP fun a => match a with | .clockEdge false => true | _ => false

/-- Tick count of a busy-wait step; all other steps take no modelled time. -/
def waitTicks : BBAct → Nat
  | .wait t => t
  | _ => 0

/-- Total busy-wait time (in half-clock ticks) of a bit-bang trace.  CS is
asserted by the first action and released by the last, so this is the
time chip select stays asserted. -/
def totalWait (tr : List BBAct) : Nat :=
  (tr.map waitTicks).sum

/-!
## Trace-ordering helpers
-/

/-- Index of the first action satisfying a predicate, if any. -/
def firstIdx (p : Act → Bool) : List Act → Option Nat
  | [] => none
  | a :: tl => if p a then some 0 else (firstIdx p tl).map (· + 1)

/-- Is this action a write of a mode-specific Start parameter into
`StreamThreadState`? -/
def Act.isStartParamWrite : Act → Bool
  | .setTransferByteLength _ => true
  | .setTransferWordLength _ => true
  | .setPinExitEnable _ => true
  | _ => false

/-- Is this action an event-flag raise? -/
def Act.isEventRaise : Act → Bool
  | .eventSet _ => true
  | _ => false

/-- The first Start-parameter write in the trace occurs strictly before
the first event-flag raise. -/
def paramBeforeEventIn (tr : List Act) : Prop :=
  ∀ i j, firstIdx Act.isStartParamWrite tr = some i →
    firstIdx Act.isEventRaise tr = some j → i < j

/-- The first event-flag raise in the trace occurs strictly before the
first Start-parameter write. -/
def eventBeforeParamIn (tr : List Act) : Prop :=
  ∀ i j, firstIdx Act.isEventRaise tr = some i →
    firstIdx Act.isStartParamWrite tr = some j → i < j

/-- The four streaming command families. -/
def isStreamFamily : VendorCmd → Bool
  | .streamGenericData => true
  | .streamBurstData => true
  | .streamRealTime => true
  | .transferStream => true
  | _ => false

/-!
## Concrete instances used by witnesses and counterexamples
-/

/-- A concrete, pairwise distinct assignment of vendor request codes
(the claims hold for every assignment; witnesses evaluate at this one). -/
def witCodes : CmdCodes :=
  ⟨0, 1, 2, 3, 4, 5, 6, 7, 8, 9, 10, 11, 12, 13, 14, 15, 16, 17, 18, 19,
   20, 21, 22, 23, 24, 25, 26, 27, 28, 29, 30, 31, 32⟩

/-- A concrete assignment of stream sub-operation selectors. -/
def witSub : StreamCmdCodes := ⟨0, 1, 2⟩

/-- An environment in which every external call succeeds. -/
def okEnv : Env :=
  { busyMeasureStatus := 0, getEP0Status := 0, pulseDriveStatus := 0
    pulseWaitStatus := 0, setPinStatus := 0, sendEP0Status := 0
    pinReadStatus := 0, pinDelayStatus := 0, getSpiSettingsStatus := 0
    readTimerStatus := 0, setDutSupplyStatus := 0, measurePinFreqStatus := 0
    configurePwmStatus := 0, transferBytesStatus := 0, bitBangStatus := 0
    restartSpiStatus := 0, setPinResistorStatus := 0, eventSetStatus := 0
    spiUpdateResult := true, ep0 := fun _ => 0
    firmwareId := [], serial := [], buildDate := [], boardInfo := []
    epCfgStream := 0, epCfgFromPC := 0, epCfgToPC := 0 }

/-- Environment in which the one `CyU3PEventSet` call fails with status 5. -/
def evFailEnv : Env := { okEnv with eventSetStatus := 5 }

/-- Environment in which the first `CyU3PSetEpConfig` call inside
`AdiAppStop` fails with status 7. -/
def epCfgFailEnv : Env := { okEnv with epCfgStream := 7 }

/-- A concrete initial shared state. -/
def witFx : FX3St := ⟨0, true⟩

/-- A concrete initial stream state. -/
def witStream : StreamSt := ⟨0, 0, 0⟩

/-!
## Decode lemmas
-/

/-- A request code matching none of the recognized codes selects the
`default` case of the request switch. -/
theorem decode_eq_unknown (c : CmdCodes) (r : Nat)
    (h : r ∉ recognizedCodes c) : decodeCmd c r = .unknown := by
  simp only [recognizedCodes, List.mem_cons, List.not_mem_nil, or_false,
    not_or] at h
  obtain ⟨h1, h2, h3, h4, h5, h6, h7, h8, h9, h10, h11, h12, h13, h14, h15,
    h16, h17, h18, h19, h20, h21, h22, h23, h24, h25, h26, h27, h28, h29,
    h30, h31, h32, h33⟩ := h
  simp [decodeCmd, h1, h2, h3, h4, h5, h6, h7, h8, h9, h10, h11, h12, h13,
    h14, h15, h16, h17, h18, h19, h20, h21, h22, h23, h24, h25, h26, h27,
    h28, h29, h30, h31, h32, h33]

/-!
## Bounds and bit-packing lemmas
-/

/-- The decoded `wValue` is a 16-bit quantity. -/
theorem wValueOf_lt (d0 : Nat) : wValueOf d0 < 65536 := by
  have h1 : d0 &&& 0xFFFF0000 ≤ 0xFFFF0000 := Nat.and_le_right
  have h2 : (d0 &&& 0xFFFF0000) >>> 16 ≤ 0xFFFF0000 >>> 16 := by
    simp only [Nat.shiftRight_eq_div_pow]
    exact Nat.div_le_div_right h1
  calc wValueOf d0 ≤ 0xFFFF0000 >>> 16 := h2
    _ < 65536 := by decide

/-- The decoded `wIndex` is a 16-bit quantity. -/
theorem wIndexOf_lt (d1 : Nat) : wIndexOf d1 < 65536 := by
  have h1 : d1 &&& 0xFFFF ≤ 0xFFFF := Nat.and_le_right
  calc wIndexOf d1 ≤ 0xFFFF := h1
    _ < 65536 := by norm_num

/-- High 16 bits of the packed 32-bit word `(i << 16) | v`. -/
theorem pack_hi (i v : Nat) (hv : v < 65536) : (i <<< 16 ||| v) >>> 16 = i := by
  apply Nat.eq_of_testBit_eq
  intro j
  have hvb : Nat.testBit v (16 + j) = false := by
    apply Nat.testBit_lt_two_pow
    calc v < 65536 := hv
      _ = 2 ^ 16 := by norm_num
      _ ≤ 2 ^ (16 + j) := Nat.pow_le_pow_right (by norm_num) (by omega)
  simp [Nat.testBit_shiftRight, Nat.testBit_or, Nat.testBit_shiftLeft, hvb]

/-- Low 16 bits of the packed 32-bit word `(i << 16) | v`. -/
theorem pack_lo (i v : Nat) (hv : v < 65536) : (i <<< 16 ||| v) &&& 0xFFFF = v := by
  rw [show (0xFFFF : Nat) = 2 ^ 16 - 1 by norm_num,
    Nat.and_pow_two_sub_one_eq_mod]
  apply Nat.eq_of_testBit_eq
  intro j
  rw [Nat.testBit_mod_two_pow]
  by_cases hj : j < 16
  · simp [Nat.testBit_or, Nat.testBit_shiftLeft, hj, Nat.not_le_of_lt hj]
  · have hvb : Nat.testBit v j = false := by
      apply Nat.testBit_lt_two_pow
      calc v < 65536 := hv
        _ = 2 ^ 16 := by norm_num
        _ ≤ 2 ^ j := Nat.pow_le_pow_right (by norm_num) (by omega)
    simp [hj, hvb]

/-!
## Claims
-/

/-- Claim C1: a vendor request whose request code matches none of the
recognized `ADI_*` codes is reported not handled (`CyFalse`, stalling the
control transfer), its trace is empty (no event bit raised), and the shared
`FX3State` / `StreamThreadState` records are unchanged. -/
theorem unknown_vendor_request_not_handled (env : Env) (c : CmdCodes)
    (sc : StreamCmdCodes) (fx : FX3St) (d0 d1 : Nat)
    (hv : bTypeOf d0 = 0x40) (hr : bRequestOf d0 ∉ recognizedCodes c) :
    AdiControlEndpointHandler env c sc fx d0 d1 = (false, []) ∧
    ∀ s : FX3St × StreamSt,
      runTrace s (AdiControlEndpointHandler env c sc fx d0 d1).2 = s := by
  have hd := decode_eq_unknown c (bRequestOf d0) hr
  refine ⟨?_, ?_⟩
  · simp [AdiControlEndpointHandler, hv, hd, dispatch]
  · intro s
    simp [AdiControlEndpointHandler, hv, hd, dispatch, runTrace]

/-- Witness for C1: request code 0x21 (not among the 33 recognized codes
0..32 of the concrete assignment) with a vendor request type. -/
theorem unknown_vendor_request_not_handled_witness :
    AdiControlEndpointHandler okEnv witCodes witSub witFx 0x2140 0 = (false, []) :=
  (unknown_vendor_request_not_handled okEnv witCodes witSub witFx 0x2140 0
    (by decide) (by decide)).1

/-- Claim C10: the `ADI_GET_STATUS` reply is always five zero bytes — in
particular the 4-byte status value in bytes 0..3 is always
`CY_U3P_SUCCESS` (0), because the local status variable is still at its
initialization value when the case reads it. -/
theorem get_status_reply_always_success (env : Env) (c : CmdCodes)
    (sc : StreamCmdCodes) (fx : FX3St) (d0 d1 : Nat)
    (hv : bTypeOf d0 = 0x40)
    (hd : decodeCmd c (bRequestOf d0) = .getStatus) :
    AdiControlEndpointHandler env c sc fx d0 d1 =
      (true, [.sendEP0 (wLengthOf d1) [0, 0, 0, 0, 0]]) := by
  simp [AdiControlEndpointHandler, hv, hd, dispatch, statusBytes]

/-- Witness for C10: concrete `ADI_GET_STATUS` request with wLength 5. -/
theorem get_status_reply_always_success_witness :
    AdiControlEndpointHandler okEnv witCodes witSub witFx 4672 327680 =
      (true, [.sendEP0 5 [0, 0, 0, 0, 0]]) :=
  get_status_reply_always_success okEnv witCodes witSub witFx 4672 327680
    (by decide) (by decide)

/-- Claim C6: the `ADI_TRANSFER_BYTES` case passes to `AdiTransferBytes`
exactly the word `(wIndex << 16) | wValue`, whose high 16 bits are `wIndex`
and whose low 16 bits are `wValue`, unmodified. -/
theorem transfer_bytes_word_packing (env : Env) (c : CmdCodes)
    (sc : StreamCmdCodes) (fx : FX3St) (d0 d1 : Nat)
    (hv : bTypeOf d0 = 0x40)
    (hd : decodeCmd c (bRequestOf d0) = .transferBytes) :
    (AdiControlEndpointHandler env c sc fx d0 d1).2 =
      [.transferBytes (wIndexOf d1 <<< 16 ||| wValueOf d0)] ∧
    (wIndexOf d1 <<< 16 ||| wValueOf d0) >>> 16 = wIndexOf d1 ∧
    (wIndexOf d1 <<< 16 ||| wValueOf d0) &&& 0xFFFF = wValueOf d0 := by
  refine ⟨?_, pack_hi _ _ (wValueOf_lt d0), pack_lo _ _ (wValueOf_lt d0)⟩
  simp [AdiControlEndpointHandler, hv, hd, dispatch]

/-- Witness for C6: wIndex = 0xABCD, wValue = 0x1234. -/
theorem transfer_bytes_word_packing_witness :
    (AdiControlEndpointHandler okEnv witCodes witSub witFx
        (0x1234 * 65536 + 26 * 256 + 0x40) 0xABCD).2 =
      [.transferBytes (0xABCD <<< 16 ||| 0x1234)] ∧
    (0xABCD <<< 16 ||| (0x1234 : Nat)) >>> 16 = 0xABCD ∧
    (0xABCD <<< 16 ||| (0x1234 : Nat)) &&& 0xFFFF = 0x1234 :=
  transfer_bytes_word_packing okEnv witCodes witSub witFx
    (0x1234 * 65536 + 26 * 256 + 0x40) 0xABCD (by decide) (by decide)

/-- Claim C4: inside any of the four streaming command families, a
sub-operation selector matching none of Start/Done/Stop only logs the
unknown selector — no event bit is raised, no state field is written — and
the request is still reported handled (`CyTrue`). -/
theorem unknown_stream_subop_logged_noop (env : Env) (c : CmdCodes)
    (sc : StreamCmdCodes) (fx : FX3St) (d0 d1 : Nat)
    (hv : bTypeOf d0 = 0x40)
    (hf : isStreamFamily (decodeCmd c (bRequestOf d0)) = true)
    (hs : decodeSub sc (wIndexOf d1) = .unknown) :
    AdiControlEndpointHandler env c sc fx d0 d1 =
      (true, [.debugLog (.unknownStreamCmd (wIndexOf d1))]) := by
  cases hd : decodeCmd c (bRequestOf d0) <;> rw [hd] at hf <;>
    simp only [isStreamFamily, Bool.false_eq_true] at hf <;>
    simp [AdiControlEndpointHandler, hv, hd, hs, dispatch, streamResult]

/-- Witness for C4: generic stream family with sub-operation selector 7. -/
theorem unknown_stream_subop_logged_noop_witness :
    AdiControlEndpointHandler okEnv witCodes witSub witFx 5184 196615 =
      (true, [.debugLog (.unknownStreamCmd 7)]) :=
  unknown_stream_subop_logged_noop okEnv witCodes witSub witFx 5184 196615
    (by decide) (by decide) (by decide)

/-- Claim C3: in any streaming family, for any of the Start/Done/Stop
sub-operations, a failing `CyU3PEventSet` status makes the handler log the
failing status code and report the request not handled (`CyFalse`). -/
theorem stream_event_set_failure_logged_not_handled (env : Env) (c : CmdCodes)
    (sc : StreamCmdCodes) (fx : FX3St) (d0 d1 : Nat)
    (hv : bTypeOf d0 = 0x40)
    (hf : isStreamFamily (decodeCmd c (bRequestOf d0)) = true)
    (hs : decodeSub sc (wIndexOf d1) ≠ .unknown)
    (he : env.eventSetStatus ≠ 0) :
    (AdiControlEndpointHandler env c sc fx d0 d1).1 = false ∧
    Act.debugLog (.eventSetFailed env.eventSetStatus) ∈
      (AdiControlEndpointHandler env c sc fx d0 d1).2 := by
  cases hd : decodeCmd c (bRequestOf d0) <;> rw [hd] at hf <;>
    simp only [isStreamFamily, Bool.false_eq_true] at hf <;>
    (cases hsub : decodeSub sc (wIndexOf d1) <;> try exact absurd hsub hs) <;>
    simp [AdiControlEndpointHandler, hv, hd, hsub, dispatch, streamResult, he]

/-- Witness for C3: burst Done with `CyU3PEventSet` failing with status 5. -/
theorem stream_event_set_failure_logged_not_handled_witness :
    (AdiControlEndpointHandler evFailEnv witCodes witSub witFx 5440 1).1 = false ∧
    Act.debugLog (.eventSetFailed 5) ∈
      (AdiControlEndpointHandler evFailEnv witCodes witSub witFx 5440 1).2 :=
  stream_event_set_failure_logged_not_handled evFailEnv witCodes witSub witFx
    5440 1 (by decide) (by decide) (by decide) (by decide)

/-- Counterexample to claim C2 as stated: on the generic stream Start path
the event bit is raised (index 1 of the trace) before the transfer byte
length is written (index 2), so the parameter write does not precede the
event-bit raise in every mode. -/
theorem generic_start_event_raised_before_param_write :
    ¬ paramBeforeEventIn
        (AdiControlEndpointHandler okEnv witCodes witSub witFx 5184 1310720).2 := by
  intro h
  have := h 2 1 (by decide) (by decide)
  omega

/-- Claim C2 (amended): in the burst and real-time Start paths the
mode-specific parameter write precedes the event-bit raise; in the generic
and transfer Start paths the event bit is raised first and the parameter
(transfer byte length) is written after it. -/
theorem stream_start_param_event_order (env : Env) (c : CmdCodes)
    (sc : StreamCmdCodes) (fx : FX3St) (d0 d1 : Nat)
    (hv : bTypeOf d0 = 0x40) :
    (decodeCmd c (bRequestOf d0) = .streamBurstData →
      decodeSub sc (wIndexOf d1) = .start →
      paramBeforeEventIn (AdiControlEndpointHandler env c sc fx d0 d1).2) ∧
    (decodeCmd c (bRequestOf d0) = .streamRealTime →
      decodeSub sc (wIndexOf d1) = .start →
      paramBeforeEventIn (AdiControlEndpointHandler env c sc fx d0 d1).2) ∧
    (decodeCmd c (bRequestOf d0) = .streamGenericData →
      decodeSub sc (wIndexOf d1) = .start →
      eventBeforeParamIn (AdiControlEndpointHandler env c sc fx d0 d1).2) ∧
    (decodeCmd c (bRequestOf d0) = .transferStream →
      decodeSub sc (wIndexOf d1) = .start →
      eventBeforeParamIn (AdiControlEndpointHandler env c sc fx d0 d1).2) := by
  refine ⟨?_, ?_, ?_, ?_⟩ <;> intro hd hs <;> intro i j hi hj <;>
    by_cases he : env.eventSetStatus = 0 <;>
    simp [AdiControlEndpointHandler, hv, hd, hs, dispatch, streamResult, he,
      firstIdx, Act.isStartParamWrite, Act.isEventRaise] at hi hj <;>
    omega

/-- Witness for the amended C2: burst Start records the word length at
trace index 0 and raises the event bit at index 1. -/
theorem stream_start_param_event_order_witness :
    paramBeforeEventIn
      (AdiControlEndpointHandler okEnv witCodes witSub witFx 5440 1310720).2 :=
  (stream_start_param_event_order okEnv witCodes witSub witFx 5440 1310720
    (by decide)).1 (by decide) (by decide)

/-- The fatal-error handler trace contains no EP0 stall. -/
theorem stall_not_in_errorHandler (st : Nat) :
    Act.stallEp0 ∉ AdiAppErrorHandler st := by
  simp [AdiAppErrorHandler]

/-- `AdiAppStop` performs no EP0 stall. -/
theorem stall_not_in_appStop (env : Env) :
    Act.stallEp0 ∉ (AdiAppStop env).1 := by
  by_cases h1 : env.epCfgStream = 0 <;> by_cases h2 : env.epCfgFromPC = 0 <;>
    by_cases h3 : env.epCfgToPC = 0 <;>
    simp [AdiAppStop, h1, h2, h3, stall_not_in_errorHandler]

/-- The reset command bodies perform no EP0 stall. -/
theorem stall_not_in_reset (env : Env) (wl : Nat) (warm : Bool) :
    Act.stallEp0 ∉ resetSequence env wl warm := by
  by_cases h : (AdiAppStop env).2 <;>
    simp [resetSequence, h, stall_not_in_appStop]

/-- No `case` of the vendor-request switch performs an EP0 stall. -/
theorem stall_not_in_dispatch (env : Env) (sc : StreamCmdCodes)
    (cmd : VendorCmd) (wv wi wl : Nat) :
    Act.stallEp0 ∉ (dispatch env sc cmd wv wi wl).2.2 := by
  cases cmd <;>
    first
      | exact stall_not_in_reset env wl false
      | exact stall_not_in_reset env wl true
      | (cases hsub : decodeSub sc wi <;>
          by_cases he : env.eventSetStatus = 0 <;>
          simp [dispatch, hsub, streamResult, he])

/-- Claim C9: a control request whose type is not a vendor request is
returned unhandled (`CyFalse`) with an empty trace (no side effects), and
the standard-request branch nested inside the vendor branch is dead: its
guard would require `bType` to be both 0x40 (vendor) and 0x00 (standard),
so no input ever reaches its EP0 stall. -/
theorem non_vendor_request_ignored_standard_branch_dead (env : Env)
    (c : CmdCodes) (sc : StreamCmdCodes) (fx : FX3St) (d0 d1 : Nat) :
    (bTypeOf d0 ≠ 0x40 →
      AdiControlEndpointHandler env c sc fx d0 d1 = (false, [])) ∧
    Act.stallEp0 ∉ (AdiControlEndpointHandler env c sc fx d0 d1).2 ∧
    ¬(bTypeOf d0 = 0x40 ∧ bTypeOf d0 = 0x00) := by
  refine ⟨?_, ?_, ?_⟩
  · intro h
    simp [AdiControlEndpointHandler, h]
  · by_cases hv : bTypeOf d0 = 0x40
    · have hnd := stall_not_in_dispatch env sc (decodeCmd c (bRequestOf d0))
        (wValueOf d0) (wIndexOf d1) (wLengthOf d1)
      simpa [AdiControlEndpointHandler, hv] using hnd
    · simp [AdiControlEndpointHandler, hv]
  · rintro ⟨h1, h2⟩
    rw [h1] at h2
    exact absurd h2 (by decide)

/-- Witness for C9: a standard request (`bType` = 0x00) is ignored. -/
theorem non_vendor_request_ignored_standard_branch_dead_witness :
    AdiControlEndpointHandler okEnv witCodes witSub witFx 0 0 = (false, []) :=
  (non_vendor_request_ignored_standard_branch_dead okEnv witCodes witSub
    witFx 0 0).1 (by decide)

/-- Claim C7: the cold (`ADI_HARD_RESET`) and warm (`ADI_WARM_RESET`)
reset commands perform the identical ordered shutdown sequence — ack,
drain EP0, delay, disconnect from the host (`CyU3PConnectState CyFalse`),
stop the application (`AdiAppStop`), release the PIB peripheral block,
delay again — and differ only in the final `CyU3PDeviceReset` argument:
`CyFalse` (reboot as a new device) for cold, `CyTrue` (restart the
application firmware only) for warm. -/
theorem reset_commands_shared_shutdown_sequence (env : Env) (c : CmdCodes)
    (sc : StreamCmdCodes) (fx : FX3St) (d0 d1 : Nat)
    (hok : (AdiAppStop env).2 = true)
    (hv : bTypeOf d0 = 0x40) :
    (decodeCmd c (bRequestOf d0) = .hardReset →
      (AdiControlEndpointHandler env c sc fx d0 d1).2 =
        ([.ackSetup, .getEP0Data (wLengthOf d1), .sleep 500,
          .connectState false true] ++ (AdiAppStop env).1
          ++ [.pibDeInit, .sleep 500]) ++ [.deviceReset false]) ∧
    (decodeCmd c (bRequestOf d0) = .warmReset →
      (AdiControlEndpointHandler env c sc fx d0 d1).2 =
        ([.ackSetup, .getEP0Data (wLengthOf d1), .sleep 500,
          .connectState false true] ++ (AdiAppStop env).1
          ++ [.pibDeInit, .sleep 500]) ++ [.deviceReset true]) := by
  constructor <;> intro hd <;>
    simp [AdiControlEndpointHandler, hv, hd, dispatch, resetSequence, hok]

/-- Witness for C7: the cold-reset trace at a concrete input. -/
theorem reset_commands_shared_shutdown_sequence_witness :
    (AdiControlEndpointHandler okEnv witCodes witSub witFx 2624 0).2 =
      ([.ackSetup, .getEP0Data 0, .sleep 500, .connectState false true]
        ++ (AdiAppStop okEnv).1 ++ [.pibDeInit, .sleep 500])
        ++ [.deviceReset false] :=
  (reset_commands_shared_shutdown_sequence okEnv witCodes witSub witFx 2624 0
    (by decide) (by decide)).1 (by decide)

/-- Counterexample to claim C5 as stated: an `ADI_HARD_RESET` vendor
command in an environment where the first endpoint-deconfiguration call
inside `AdiAppStop` fails with status 7 does run the fatal error handler
(`AdiAppErrorHandler`), visible as the `fatalError 7` action in its trace. -/
theorem hard_reset_epcfg_failure_runs_fatal_handler :
    Act.fatalError 7 ∈
      (AdiControlEndpointHandler epCfgFailEnv witCodes witSub witFx 2624 0).2 := by
  decide

/-- Outside the two reset commands, no `case` of the vendor-request switch
can reach the fatal error handler. -/
theorem fatal_not_in_dispatch (env : Env) (sc : StreamCmdCodes)
    (cmd : VendorCmd) (wv wi wl : Nat)
    (h1 : cmd ≠ VendorCmd.hardReset) (h2 : cmd ≠ VendorCmd.warmReset)
    (s : Nat) : Act.fatalError s ∉ (dispatch env sc cmd wv wi wl).2.2 := by
  cases cmd <;>
    first
      | exact absurd rfl h1
      | exact absurd rfl h2
      | (cases hsub : decodeSub sc wi <;>
          by_cases he : env.eventSetStatus = 0 <;>
          simp [dispatch, hsub, streamResult, he])

/-- Claim C5 (amended): a failing peripheral call in the normal command
path yields a non-success status echoed to the host as the 4-byte
little-endian status payload whenever the command replies (shown for the
five status-replying commands), and the fatal error handler never runs —
except through the cold/warm reset commands, whose shutdown path calls
`AdiAppStop`, where a failing endpoint-deconfiguration call escalates to
`AdiAppErrorHandler`. -/
theorem command_path_status_echo_and_fatal_scope (env : Env) (c : CmdCodes)
    (sc : StreamCmdCodes) (fx : FX3St) (d0 d1 : Nat) :
    (decodeCmd c (bRequestOf d0) ≠ .hardReset →
     decodeCmd c (bRequestOf d0) ≠ .warmReset →
     ∀ s, Act.fatalError s ∉ (AdiControlEndpointHandler env c sc fx d0 d1).2) ∧
    (bTypeOf d0 = 0x40 →
      (decodeCmd c (bRequestOf d0) = .setPin →
        Act.sendEP0 (wLengthOf d1) (statusBytes env.setPinStatus) ∈
          (AdiControlEndpointHandler env c sc fx d0 d1).2) ∧
      (decodeCmd c (bRequestOf d0) = .setDutSupply →
        Act.sendEP0 (wLengthOf d1) (statusBytes env.setDutSupplyStatus) ∈
          (AdiControlEndpointHandler env c sc fx d0 d1).2) ∧
      (decodeCmd c (bRequestOf d0) = .resetSpi →
        Act.sendEP0 (wLengthOf d1) (statusBytes env.restartSpiStatus) ∈
          (AdiControlEndpointHandler env c sc fx d0 d1).2) ∧
      (decodeCmd c (bRequestOf d0) = .setPinResistor →
        Act.sendEP0 (wLengthOf d1) (statusBytes env.setPinResistorStatus) ∈
          (AdiControlEndpointHandler env c sc fx d0 d1).2) ∧
      (decodeCmd c (bRequestOf d0) = .pulseDrive →
        Act.bulkSend 4 (statusBytes env.pulseDriveStatus) ∈
          (AdiControlEndpointHandler env c sc fx d0 d1).2)) := by
  constructor
  · intro h1 h2 s
    by_cases hv : bTypeOf d0 = 0x40
    · have hnd := fatal_not_in_dispatch env sc (decodeCmd c (bRequestOf d0))
        (wValueOf d0) (wIndexOf d1) (wLengthOf d1) h1 h2 s
      simpa [AdiControlEndpointHandler, hv] using hnd
    · simp [AdiControlEndpointHandler, hv]
  · intro hv
    refine ⟨?_, ?_, ?_, ?_, ?_⟩ <;> intro hd <;>
      simp [AdiControlEndpointHandler, hv, hd, dispatch]

/-- Witness for the amended C5: the `ADI_SET_PIN` reply carries the
little-endian bytes of the `AdiSetPin` status. -/
theorem command_path_status_echo_and_fatal_scope_witness :
    Act.sendEP0 4 (statusBytes okEnv.setPinStatus) ∈
      (AdiControlEndpointHandler okEnv witCodes witSub witFx 1600 262147).2 :=
  ((command_path_status_echo_and_fatal_scope okEnv witCodes witSub witFx
    1600 262147).2 (by decide)).1 (by decide)

/-- One bit of the transfer contributes exactly one rising clock edge. -/
theorem risingEdges_bit (d : Nat) (b : Bool) :
    risingEdges (bitBangBit d b) = 1 := by
  simp [bitBangBit, risingEdges]

/-- One bit of the transfer contributes exactly one falling clock edge. -/
theorem fallingEdges_bit (d : Nat) (b : Bool) :
    fallingEdges (bitBangBit d b) = 1 := by
  simp [bitBangBit, fallingEdges]

/-- One bit of the transfer busy-waits for both half-periods, the second
padded by the asymmetry-compensation offset. -/
theorem totalWait_bit (d : Nat) (b : Bool) :
    totalWait (bitBangBit d b) = 2 * d + BITBANG_HALFCLOCK_OFFSET := by
  simp [bitBangBit, totalWait, waitTicks]
  omega

/-- Rising-edge count of the data-bit portion of the transfer. -/
theorem risingEdges_bits (mosi : Nat → Bool) (d : Nat) (n : Nat) :
    risingEdges (bitBangBits mosi d n) = n := by
  induction n with
  | zero => simp [bitBangBits, risingEdges]
  | succ k ih =>
      simp only [bitBangBits, risingEdges, List.countP_append] at ih ⊢
      have hb := risingEdges_bit d (mosi k)
      simp only [risingEdges] at hb
      omega

/-- Falling-edge count of the data-bit portion of the transfer. -/
theorem fallingEdges_bits (mosi : Nat → Bool) (d : Nat) (n : Nat) :
    fallingEdges (bitBangBits mosi d n) = n := by
  induction n with
  | zero => simp [bitBangBits, fallingEdges]
  | succ k ih =>
      simp only [bitBangBits, fallingEdges, List.countP_append] at ih ⊢
      have hb := fallingEdges_bit d (mosi k)
      simp only [fallingEdges] at hb
      omega

/-- Busy-wait total of the data-bit portion of the transfer. -/
theorem totalWait_bits (mosi : Nat → Bool) (d : Nat) (n : Nat) :
    totalWait (bitBangBits mosi d n) = n * (2 * d + BITBANG_HALFCLOCK_OFFSET) := by
  induction n with
  | zero => simp [bitBangBits, totalWait]
  | succ k ih =>
      simp only [bitBangBits, totalWait, List.map_append, List.sum_append] at ih ⊢
      have hb := totalWait_bit d (mosi k)
      simp only [totalWait] at hb
      rw [Nat.succ_mul]
      omega

/-- Claim C8: a bit-bang SPI transfer with half-clock delay `d` and
`bitCount = n` toggles the clock line exactly `n` times in each direction
(`n` full clock cycles), and the time chip select stays asserted is at
least `CSLeadDelay + n * 2 * d + CSLagDelay`. -/
theorem bitbang_toggle_count_and_cs_duration (mosi : Nat → Bool) (n : Nat)
    (cfg : BitBangSpiConf) :
    risingEdges (AdiBitBangSpiTransfer mosi n cfg) = n ∧
    fallingEdges (AdiBitBangSpiTransfer mosi n cfg) = n ∧
    cfg.CSLeadDelay + n * (2 * cfg.HalfClockDelay) + cfg.CSLagDelay ≤
      totalWait (AdiBitBangSpiTransfer mosi n cfg) := by
  have hr := risingEdges_bits mosi cfg.HalfClockDelay n
  have hf := fallingEdges_bits mosi cfg.HalfClockDelay n
  have hw := totalWait_bits mosi cfg.HalfClockDelay n
  have hm : n * (2 * cfg.HalfClockDelay) ≤
      n * (2 * cfg.HalfClockDelay + BITBANG_HALFCLOCK_OFFSET) :=
    Nat.mul_le_mul_left n (by omega)
  refine ⟨?_, ?_, ?_⟩
  · simp only [AdiBitBangSpiTransfer, risingEdges, List.countP_append,
      List.countP_cons, List.countP_nil] at hr ⊢
    simpa using hr
  · simp only [AdiBitBangSpiTransfer, fallingEdges, List.countP_append,
      List.countP_cons, List.countP_nil] at hf ⊢
    simpa using hf
  · simp only [AdiBitBangSpiTransfer, totalWait, List.map_append,
      List.sum_append, List.map_cons, List.sum_cons, List.map_nil,
      List.sum_nil, waitTicks] at hw ⊢
    omega
